import Mathlib

/-!
Verification development for the MLSManager master/worker orchestration
backend.  The Python services are shallowly embedded as pure Lean
functions over explicit record states:

* `Job`, `JobStatus`, `Node`, `NodeStatus` mirror
  `app/models/job.py` and `app/models/node.py`;
* `update_job_status` mirrors `JobService.update_job_status`
  (`app/services/job_service.py`);
* `assign_job_to_node` / `auto_assign_pending_jobs` mirror the scheduler
  methods of the same service;
* `register_node` and `verify_agent_token` mirror
  `app/services/node_service.py`;
* `scheduler_check_offline_nodes` mirrors the background task in
  `app/tasks/scheduler.py`, `service_check_offline_nodes` the service
  method with the same name;
* `cancel_job` mirrors the `cancel_job` endpoint of
  `app/api/v1/endpoints/jobs.py`;
* `check_node_online`, `clone_project`, `pull_project`, `delete_project`
  mirror `app/services/worker_client.py`, with the HTTP transport made an
  explicit argument.

Timestamps are integers (seconds).  Python truthiness tests on optional
values are modelled explicitly (`none` and the zero / empty value are
falsy).  SQL three-valued logic is modelled by making a comparison
against a NULL column false (the row is not selected).
-/

namespace MLSM

/-- Job status enumeration, from `app/models/job.py` (`class JobStatus`). -/
inductive JobStatus
  | pending
  | queued
  | running
  | completed
  | failed
  | cancelled
  deriving DecidableEq, Repr

/-- The terminal statuses, i.e. membership in the Python list
`[JobStatus.COMPLETED, JobStatus.FAILED, JobStatus.CANCELLED]`. -/
def JobStatus.isTerminal : JobStatus → Bool
  | .completed => true
  | .failed => true
  | .cancelled => true
  | _ => false

/-- Node status enumeration, from `app/models/node.py` (`class NodeStatus`). -/
inductive NodeStatus
  | online
  | offline
  | maintenance
  deriving DecidableEq, Repr

/-- The fields of the ORM `Job` model (`app/models/job.py`) that the
embedded operations read or write.  Optional columns are `Option`;
timestamps are integer seconds. -/
structure Job where
  id : Nat
  owner_id : Nat := 0
  node_id : Option Nat := none
  cpu_limit : Option Int := none
  memory_limit_gb : Option Int := none
  gpu_count : Option Int := none
  status : JobStatus := .pending
  exit_code : Option Int := none
  error_message : Option String := none
  log_path : Option String := none
  output_path : Option String := none
  created_at : Int := 0
  started_at : Option Int := none
  completed_at : Option Int := none
  deriving DecidableEq, Repr

/-- The fields of the ORM `Node` model (`app/models/node.py`) that the
embedded operations read or write. -/
structure Node where
  id : Nat
  node_id : String
  name : String := ""
  node_type : String := "worker"
  host : String := ""
  port : Nat := 8000
  status : NodeStatus := .offline
  is_active : Bool := true
  cpu_count : Option Int := none
  memory_total_gb : Option Int := none
  gpu_count : Option Int := none
  gpu_info : Option String := none
  storage_path : Option String := none
  storage_total_gb : Option Int := none
  storage_used_gb : Option Int := none
  last_heartbeat : Option Int := none
  deriving DecidableEq, Repr

/-- The optional parameters of `JobService.update_job_status`
(exit_code, error_message, log_path, output_path). -/
structure StatusUpdate where
  status : JobStatus
  exit_code : Option Int := none
  error_message : Option String := none
  log_path : Option String := none
  output_path : Option String := none
  deriving DecidableEq, Repr

/-- Python truthiness of an optional string (`if s:`): `None` and the
empty string are falsy. -/
def strTruthy : Option String → Bool
  | none => false
  | some s => s ≠ ""

/-- Line 109 of `JobService.update_job_status`:
`job.status = status.value` — unconditional. -/
def setStatusStep (u : StatusUpdate) (j : Job) : Job :=
  { j with status := u.status }

/-- Lines 111-112: `if status == RUNNING and not job.started_at:
job.started_at = now`. -/
def startedStep (now : Int) (u : StatusUpdate) (j : Job) : Job :=
  if u.status = JobStatus.running ∧ j.started_at = none then
    { j with started_at := some now }
  else j

/-- Lines 114-115: `if status in [COMPLETED, FAILED, CANCELLED]:
job.completed_at = now` — no already-set check. -/
def completedStep (now : Int) (u : StatusUpdate) (j : Job) : Job :=
  if u.status.isTerminal then { j with completed_at := some now } else j

/-- Lines 117-118: `if exit_code is not None: job.exit_code = exit_code`. -/
def exitStep (u : StatusUpdate) (j : Job) : Job :=
  match u.exit_code with
  | some c => { j with exit_code := some c }
  | none => j

/-- Lines 119-120: `if error_message: job.error_message = error_message`. -/
def errorStep (u : StatusUpdate) (j : Job) : Job :=
  if strTruthy u.error_message then { j with error_message := u.error_message }
  else j

/-- Lines 121-122: `if log_path: job.log_path = log_path`. -/
def logStep (u : StatusUpdate) (j : Job) : Job :=
  if strTruthy u.log_path then { j with log_path := u.log_path } else j

/-- Lines 123-124: `if output_path: job.output_path = output_path`. -/
def outputStep (u : StatusUpdate) (j : Job) : Job :=
  if strTruthy u.output_path then { j with output_path := u.output_path } else j

/-- `JobService.update_job_status` (`app/services/job_service.py`,
lines 94-128) applied to a job that was found: the sequence of field
writes of the Python body, in source order.  The status is applied
unconditionally, `started_at` is written when entering RUNNING with no
`started_at` yet, `completed_at` is written whenever the new status is
in the terminal list, then the optional fields are applied with Python
truthiness (`exit_code` is tested with `is not None`, the strings with
`if x:`). -/
def update_job_status (now : Int) (job : Job) (u : StatusUpdate) : Job :=
  outputStep u (logStep u (errorStep u (exitStep u
    (completedStep now u (startedStep now u (setStatusStep u job))))))

/-- Python truthiness of an optional integer (`if x:`): `None` and `0`
are falsy. -/
def intTruthy : Option Int → Bool
  | none => false
  | some v => v ≠ 0

/-- SQL comparison `column >= value` where the column may be NULL: a
NULL column makes the predicate false (the row is not selected). -/
def sqlGe (column : Option Int) (value : Int) : Bool :=
  match column with
  | some c => value ≤ c
  | none => false

/-- SQL comparison `column < value` where the column may be NULL. -/
def sqlLt (column : Option Int) (value : Int) : Bool :=
  match column with
  | some c => c < value
  | none => false

/-- The WHERE clause built by `JobService.assign_job_to_node`
(lines 24-37): status online, `is_active`, and one resource filter per
resource the job requests (`if job.gpu_count and job.gpu_count > 0`,
`if job.memory_limit_gb`, `if job.cpu_limit` — Python truthiness). -/
def isCandidate (job : Job) (n : Node) : Bool :=
  n.status = NodeStatus.online ∧ n.is_active
    ∧ (if intTruthy job.gpu_count ∧ 0 < job.gpu_count.getD 0 then
        sqlGe n.gpu_count (job.gpu_count.getD 0) else true)
    ∧ (if intTruthy job.memory_limit_gb then
        sqlGe n.memory_total_gb (job.memory_limit_gb.getD 0) else true)
    ∧ (if intTruthy job.cpu_limit then
        sqlGe n.cpu_count (job.cpu_limit.getD 0) else true)

/-- `select(func.count(Job.id)).where(Job.node_id == node.id,
Job.status == RUNNING)` — the number of RUNNING jobs assigned to the
node with primary key `nid`. -/
def countRunning (jobs : List Job) (nid : Nat) : Nat :=
  (jobs.filter (fun j => j.node_id = some nid ∧ j.status = JobStatus.running)).length

/-- One iteration of the selection loop of `assign_job_to_node`
(lines 49-61): `(best_node, min_jobs)` is `none` while `min_jobs` is
still infinity, and a candidate replaces the current best only on a
strictly smaller RUNNING-job count. -/
def bestStep (jobs : List Job) (acc : Option (Node × Nat)) (n : Node) :
    Option (Node × Nat) :=
  match acc with
  | none => some (n, countRunning jobs n.id)
  | some (b, m) =>
      if countRunning jobs n.id < m then some (n, countRunning jobs n.id)
      else some (b, m)

/-- The selection loop of `assign_job_to_node` (lines 46-61). -/
def selectBest (jobs : List Job) (candidates : List Node) : Option Node :=
  (candidates.foldl (bestStep jobs) none).map Prod.fst

/-- `JobService.assign_job_to_node` (lines 18-69): filters candidate
nodes, returns `(job, none)` untouched when there is no candidate,
otherwise writes `node_id` and `status = QUEUED` on the job and returns
the chosen node.  The job's own status is never consulted. -/
def assign_job_to_node (jobs : List Job) (nodes : List Node) (job : Job) :
    Job × Option Node :=
  let candidates := nodes.filter (isCandidate job)
  match selectBest jobs candidates with
  | none => (job, none)
  | some best =>
      ({ job with node_id := some best.id, status := JobStatus.queued }, some best)

/-- The database state seen by the scheduler: the `jobs` and `nodes`
tables.  The `jobs` list is kept in `created_at` order (the order the
`ORDER BY created_at` scan returns). -/
structure DB where
  jobs : List Job
  nodes : List Node
  deriving DecidableEq, Repr

/-- Committing an updated job row: replace the row with the same
primary key. -/
def setJob (jobs : List Job) (j : Job) : List Job :=
  jobs.map (fun x => if x.id = j.id then j else x)

/-- One iteration of `auto_assign_pending_jobs` (lines 163-166): try to
assign one previously selected pending job against the current state,
committing the assignment and bumping the counter when a node was
found. -/
def autoAssignStep (st : DB × Nat) (j : Job) : DB × Nat :=
  let r := assign_job_to_node st.1.jobs st.1.nodes j
  match r.2 with
  | some _ => ({ st.1 with jobs := setJob st.1.jobs r.1 }, st.2 + 1)
  | none => st

/-- `JobService.auto_assign_pending_jobs` (lines 153-168): select the
jobs whose status is PENDING (oldest first), call `assign_job_to_node`
on each in turn, commit each successful assignment, and count the
placements. -/
def auto_assign_pending_jobs (db : DB) : DB × Nat :=
  (db.jobs.filter (fun j => j.status = JobStatus.pending)).foldl
    autoAssignStep (db, 0)

/-- The JWT payload carried by an agent token: the claims written by the
call site in `NodeService.register_node`
(`{"sub": "agent:"+node_id, "type": "agent", "node_id": node_id}`)
plus the expiry claim.  `type` is the token-kind claim. -/
structure JwtPayload where
  sub : String
  type : String
  node_id : Option String
  exp : Int
  deriving DecidableEq, Repr

/-- A numeric code of the payload, used by the symbolic signature. -/
def payloadCode (p : JwtPayload) : Int :=
  (p.sub.length : Int) + 2 * (p.type.length : Int)
    + 3 * (match p.node_id with | none => 0 | some s => 1 + (s.length : Int))
    + 5 * p.exp

/-- Symbolic model of the HMAC signature over the encoded payload with
the process-wide symmetric key: verification succeeds exactly on the
genuine signature for that key and payload. -/
def signature (key : Int) (p : JwtPayload) : Int :=
  key + 1000003 * payloadCode p

/-- A serialized token: payload plus signature bytes.  Tampering with
the signature is modelled by changing `sig`. -/
structure Token where
  payload : JwtPayload
  sig : Int
  deriving DecidableEq, Repr

/-- `jose.jwt.decode(token, key, algorithms=[...])`: checks the
signature against the key and the `exp` claim against the current time;
any failure raises `JWTError`, modelled as `none`. -/
def jwt_decode (key now : Int) (t : Token) : Option JwtPayload :=
  if t.sig = signature key t.payload ∧ now < t.payload.exp then some t.payload
  else none

/-- Modelled from the spec: `create_access_token` is defined in
`app/core/security.py`, which is not among the provided sources.  Per
spec §4.2 it signs the given claims together with an expiry
`now + expires_delta` using the process-wide symmetric signing key. -/
def create_access_token (key now : Int) (sub tokenType : String)
    (node_id : Option String) (expires_delta : Int) : Token :=
  let p : JwtPayload :=
    { sub := sub, type := tokenType, node_id := node_id, exp := now + expires_delta }
  { payload := p, sig := signature key p }

/-- `verify_agent_token` (`app/services/node_service.py`, lines 20-58):
missing header, decode failure, wrong token kind, and falsy `node_id`
all return `None`; otherwise the node with that `node_id` is looked up
in the registry. -/
def verify_agent_token (db : List Node) (key now : Int)
    (x_agent_token : Option Token) : Option Node :=
  match x_agent_token with
  | none => none
  | some t =>
      match jwt_decode key now t with
      | none => none
      | some p =>
          if p.type ≠ "agent" then none
          else if ¬ strTruthy p.node_id then none
          else db.find? (fun n => n.node_id = p.node_id.getD "")

/-- The keys of the `system_info` dict that `_update_system_info`
looks for; `some` models key presence. -/
structure SystemInfo where
  cpu_count : Option Int := none
  memory_total_gb : Option Int := none
  gpu_count : Option Int := none
  gpu_info : Option String := none
  storage_total_gb : Option Int := none
  storage_used_gb : Option Int := none
  deriving DecidableEq, Repr

/-- `NodeService._update_system_info`: each present key overwrites the
corresponding node column. -/
def updateSystemInfo (n : Node) (info : SystemInfo) : Node :=
  let n := match info.cpu_count with
    | some v => { n with cpu_count := some v } | none => n
  let n := match info.memory_total_gb with
    | some v => { n with memory_total_gb := some v } | none => n
  let n := match info.gpu_count with
    | some v => { n with gpu_count := some v } | none => n
  let n := match info.gpu_info with
    | some v => { n with gpu_info := some v } | none => n
  let n := match info.storage_total_gb with
    | some v => { n with storage_total_gb := some v } | none => n
  match info.storage_used_gb with
  | some v => { n with storage_used_gb := some v } | none => n

/-- The one-year expiry passed at the `create_access_token` call site
(`timedelta(days=365)`), in seconds. -/
def agentTokenExpiry : Int := 365 * 86400

/-- `NodeService.register_node` (lines 67-119): upsert by `node_id`
(update name/host/port/status/heartbeat, plus truthy `storage_path` and
present `system_info` keys, on an existing row; insert a fresh row with
status online otherwise), then mint an agent token.  `fresh_pk` is the
autoincrement primary key used when a row is inserted. -/
def register_node (db : List Node) (key now : Int) (fresh_pk : Nat)
    (node_id name host : String) (port : Nat) (storage_path : Option String)
    (system_info : Option SystemInfo) : List Node × Node × Token :=
  let token := create_access_token key now ("agent:" ++ node_id) "agent"
    (some node_id) agentTokenExpiry
  match db.find? (fun n => n.node_id = node_id) with
  | some n0 =>
      let n1 : Node := { n0 with
        name := name, host := host, port := port,
        status := NodeStatus.online, last_heartbeat := some now }
      let n2 : Node :=
        if strTruthy storage_path then { n1 with storage_path := storage_path }
        else n1
      let n3 : Node := match system_info with
        | some i => updateSystemInfo n2 i
        | none => n2
      (db.map (fun x => if x.node_id = node_id then n3 else x), n3, token)
  | none =>
      let n : Node :=
        { id := fresh_pk, node_id := node_id, name := name,
          node_type := "worker", host := host, port := port,
          status := NodeStatus.online, storage_path := storage_path,
          last_heartbeat := some now }
      let n : Node := match system_info with
        | some i => updateSystemInfo n i
        | none => n
      (db ++ [n], n, token)

/-- The WHERE clause of `NodeService.check_offline_nodes`
(`app/services/node_service.py`, lines 136-160): status online and
`last_heartbeat < now - timeout` (a NULL heartbeat is not selected). -/
def serviceStale (now timeout_seconds : Int) (n : Node) : Bool :=
  n.status = NodeStatus.online ∧ sqlLt n.last_heartbeat (now - timeout_seconds)

/-- `NodeService.check_offline_nodes`: marks every selected row offline
and returns the updated table with the list of marked `node_id`s. -/
def service_check_offline_nodes (now timeout_seconds : Int)
    (nodes : List Node) : List Node × List String :=
  ((nodes.map fun n =>
      if serviceStale now timeout_seconds n then { n with status := NodeStatus.offline }
      else n),
   (nodes.filter (serviceStale now timeout_seconds)).map (·.node_id))

/-- The WHERE clause of the background task `check_offline_nodes`
(`app/tasks/scheduler.py`, lines 22-60): status online, `is_active`,
and `last_heartbeat < now - timeout`. -/
def schedulerStale (now timeout_seconds : Int) (n : Node) : Bool :=
  n.status = NodeStatus.online ∧ n.is_active
    ∧ sqlLt n.last_heartbeat (now - timeout_seconds)

/-- The background task `check_offline_nodes` of
`app/tasks/scheduler.py`: collects the stale node ids and issues a bulk
`UPDATE ... WHERE node_id IN ids SET status = offline`; returns the
updated table with the number of marked nodes. -/
def scheduler_check_offline_nodes (now timeout_seconds : Int)
    (nodes : List Node) : List Node × Nat :=
  let ids := (nodes.filter (schedulerStale now timeout_seconds)).map (·.node_id)
  ((nodes.map fun n =>
      if n.node_id ∈ ids then { n with status := NodeStatus.offline } else n),
   ids.length)

/-- The HTTP error responses the `cancel_job` endpoint can raise:
404 Not Found, 403 Forbidden, and 400 Bad Request (the
"Cannot cancel job in \x7bstatus\x7d status" response on a terminal
job). -/
inductive CancelErr
  | notFound
  | forbidden
  | badRequest
  deriving DecidableEq, Repr

/-- The `cancel_job` endpoint (lines 326-356): 404 when the job id is
unknown, 403 when the caller is a plain member who does not own the
job, 400 when the status is already terminal; otherwise sets
`status = CANCELLED` and commits. -/
def cancel_job (jobs : List Job) (user_id : Nat) (role : String)
    (job_id : Nat) : Except CancelErr (List Job × Job) :=
  match jobs.find? (fun j => j.id = job_id) with
  | none => Except.error CancelErr.notFound
  | some job =>
      if job.owner_id ≠ user_id ∧ role = "member" then
        Except.error CancelErr.forbidden
      else if job.status.isTerminal then Except.error CancelErr.badRequest
      else
        let j2 : Job := { job with status := JobStatus.cancelled }
        Except.ok (setJob jobs j2, j2)

/-- Python truthiness of an optional natural (`if x:`). -/
def natTruthy : Option Nat → Bool
  | none => false
  | some v => v ≠ 0

/-- The attributes `WorkerClient` reads off the node object it is
handed (`node.hostname`, `node.agent_port`, `node.agent_token`). -/
structure ClientNode where
  hostname : Option String := none
  agent_port : Option Nat := none
  agent_token : Option String := none
  deriving DecidableEq, Repr

/-- Outcome of one HTTP exchange: a response with a status code and a
body, or an `httpx.RequestError` raised by the transport. -/
inductive Transport
  | ok (status : Nat) (body : String)
  | reqError (msg : String)
  deriving DecidableEq, Repr

/-- The distinguished error of `worker_client.py`:
`WorkerUnreachableError`. -/
inductive WorkerErr
  | unreachable (msg : String)
  deriving DecidableEq, Repr

/-- `WorkerClient.check_node_online` (lines 20-39): false on a missing
address, `status == 200` on a response, false on `RequestError` —
never an exception. -/
def check_node_online (node : ClientNode) (transport : Transport) : Bool :=
  if ¬ strTruthy node.hostname ∨ ¬ natTruthy node.agent_port then false
  else
    match transport with
    | Transport.ok s _ => s == 200
    | Transport.reqError _ => false

/-- `WorkerClient.clone_project` (lines 41-81): raises
`WorkerUnreachableError` on a missing address or a `RequestError`;
otherwise reports whether the worker answered 202 Accepted. -/
def clone_project (node : ClientNode) (transport : Transport) :
    Except WorkerErr Bool :=
  if ¬ strTruthy node.hostname ∨ ¬ natTruthy node.agent_port then
    Except.error (WorkerErr.unreachable "Node missing hostname or agent_port")
  else
    match transport with
    | Transport.ok s _ => Except.ok (s == 202)
    | Transport.reqError e =>
        Except.error (WorkerErr.unreachable ("Cannot reach worker: " ++ e))

/-- `WorkerClient.pull_project` (lines 83-119): raises
`WorkerUnreachableError` on a missing address or a `RequestError`;
otherwise returns the response body. -/
def pull_project (node : ClientNode) (transport : Transport) :
    Except WorkerErr String :=
  if ¬ strTruthy node.hostname ∨ ¬ natTruthy node.agent_port then
    Except.error (WorkerErr.unreachable "Node missing hostname or agent_port")
  else
    match transport with
    | Transport.ok _ body => Except.ok body
    | Transport.reqError e =>
        Except.error (WorkerErr.unreachable ("Cannot reach worker: " ++ e))

/-- `WorkerClient.delete_project` (lines 154-187): raises
`WorkerUnreachableError` on a missing address or a `RequestError`;
otherwise reports whether the worker answered 200. -/
def delete_project (node : ClientNode) (transport : Transport) :
    Except WorkerErr Bool :=
  if ¬ strTruthy node.hostname ∨ ¬ natTruthy node.agent_port then
    Except.error (WorkerErr.unreachable "Node missing hostname or agent_port")
  else
    match transport with
    | Transport.ok s _ => Except.ok (s == 200)
    | Transport.reqError e =>
        Except.error (WorkerErr.unreachable ("Cannot reach worker: " ++ e))

/-! ### Concrete fixtures used by witnesses and counterexamples -/

def assignedR (a b : Job) : Prop :=
  b = a ∨ (a.status = JobStatus.pending ∧ b.status = JobStatus.queued ∧ b.id = a.id)

def c3jobs : List Job :=
  [ { id := 10, node_id := some 1, status := JobStatus.running },
    { id := 11, node_id := some 1, status := JobStatus.running },
    { id := 12, node_id := some 1, status := JobStatus.running } ]

def c3nodeA : Node := { id := 1, node_id := "a", status := NodeStatus.online }

def c3nodeB : Node := { id := 2, node_id := "b", status := NodeStatus.online }

def c3job : Job := { id := 20 }

def c4node : Node := { id := 1, node_id := "n1", status := NodeStatus.online }

def c4runningJob : Job := { id := 30, status := JobStatus.running }

def c4db : DB :=
  { jobs := [{ id := 40, status := JobStatus.pending }], nodes := [c4node] }

def c5sys : SystemInfo := { cpu_count := some 8, gpu_count := some 1 }

def c6done : Job :=
  { id := 1, owner_id := 4, node_id := some 9, status := JobStatus.completed }

def c6pend : Job :=
  { id := 2, owner_id := 4, node_id := some 9, status := JobStatus.pending }

def c7stale91 : Node :=
  { id := 1, node_id := "s91", status := NodeStatus.online,
    last_heartbeat := some 9 }

def c7fresh89 : Node :=
  { id := 2, node_id := "f89", status := NodeStatus.online,
    last_heartbeat := some 11 }

def c7inactive : Node :=
  { id := 3, node_id := "i", status := NodeStatus.online, is_active := false,
    last_heartbeat := some 9 }

def c8reg : List Node × Node × Token :=
  register_node [] 7 100 1 "w1" "worker one" "10.0.0.1" 8001 none none

def c10inactive : Node :=
  { id := 7, node_id := "dis", status := NodeStatus.online, is_active := false,
    last_heartbeat := some 9 }

def c10active : Node :=
  { id := 8, node_id := "act", status := NodeStatus.online,
    last_heartbeat := some 9 }

/-! ### Helper lemmas -/

@[simp] lemma setStatusStep_status (u : StatusUpdate) (j : Job) :
    (setStatusStep u j).status = u.status := rfl

@[simp] lemma setStatusStep_started_at (u : StatusUpdate) (j : Job) :
    (setStatusStep u j).started_at = j.started_at := rfl

@[simp] lemma setStatusStep_completed_at (u : StatusUpdate) (j : Job) :
    (setStatusStep u j).completed_at = j.completed_at := rfl

@[simp] lemma startedStep_status (now : Int) (u : StatusUpdate) (j : Job) :
    (startedStep now u j).status = j.status := by
  unfold startedStep; split_ifs <;> rfl

@[simp] lemma startedStep_completed_at (now : Int) (u : StatusUpdate) (j : Job) :
    (startedStep now u j).completed_at = j.completed_at := by
  unfold startedStep; split_ifs <;> rfl

lemma startedStep_started_at (now : Int) (u : StatusUpdate) (j : Job) :
    (startedStep now u j).started_at =
      if u.status = JobStatus.running ∧ j.started_at = none then some now
      else j.started_at := by
  unfold startedStep; split_ifs <;> rfl

@[simp] lemma completedStep_status (now : Int) (u : StatusUpdate) (j : Job) :
    (completedStep now u j).status = j.status := by
  unfold completedStep; split_ifs <;> rfl

@[simp] lemma completedStep_started_at (now : Int) (u : StatusUpdate) (j : Job) :
    (completedStep now u j).started_at = j.started_at := by
  unfold completedStep; split_ifs <;> rfl

lemma completedStep_completed_at (now : Int) (u : StatusUpdate) (j : Job) :
    (completedStep now u j).completed_at =
      if u.status.isTerminal then some now else j.completed_at := by
  unfold completedStep; split_ifs <;> rfl

@[simp] lemma exitStep_status (u : StatusUpdate) (j : Job) :
    (exitStep u j).status = j.status := by
  unfold exitStep; cases u.exit_code <;> rfl

@[simp] lemma exitStep_started_at (u : StatusUpdate) (j : Job) :
    (exitStep u j).started_at = j.started_at := by
  unfold exitStep; cases u.exit_code <;> rfl

@[simp] lemma exitStep_completed_at (u : StatusUpdate) (j : Job) :
    (exitStep u j).completed_at = j.completed_at := by
  unfold exitStep; cases u.exit_code <;> rfl

@[simp] lemma errorStep_status (u : StatusUpdate) (j : Job) :
    (errorStep u j).status = j.status := by
  unfold errorStep; split_ifs <;> rfl

@[simp] lemma errorStep_started_at (u : StatusUpdate) (j : Job) :
    (errorStep u j).started_at = j.started_at := by
  unfold errorStep; split_ifs <;> rfl

@[simp] lemma errorStep_completed_at (u : StatusUpdate) (j : Job) :
    (errorStep u j).completed_at = j.completed_at := by
  unfold errorStep; split_ifs <;> rfl

@[simp] lemma logStep_status (u : StatusUpdate) (j : Job) :
    (logStep u j).status = j.status := by
  unfold logStep; split_ifs <;> rfl

@[simp] lemma logStep_started_at (u : StatusUpdate) (j : Job) :
    (logStep u j).started_at = j.started_at := by
  unfold logStep; split_ifs <;> rfl

@[simp] lemma logStep_completed_at (u : StatusUpdate) (j : Job) :
    (logStep u j).completed_at = j.completed_at := by
  unfold logStep; split_ifs <;> rfl

@[simp] lemma outputStep_status (u : StatusUpdate) (j : Job) :
    (outputStep u j).status = j.status := by
  unfold outputStep; split_ifs <;> rfl

@[simp] lemma outputStep_started_at (u : StatusUpdate) (j : Job) :
    (outputStep u j).started_at = j.started_at := by
  unfold outputStep; split_ifs <;> rfl

@[simp] lemma outputStep_completed_at (u : StatusUpdate) (j : Job) :
    (outputStep u j).completed_at = j.completed_at := by
  unfold outputStep; split_ifs <;> rfl

/-- The resulting status of an update is always the requested status. -/
lemma update_job_status_status (now : Int) (job : Job) (u : StatusUpdate) :
    (update_job_status now job u).status = u.status := by
  simp [update_job_status]

/-- The resulting `started_at` of an update. -/
lemma update_job_status_started_at (now : Int) (job : Job) (u : StatusUpdate) :
    (update_job_status now job u).started_at =
      if u.status = JobStatus.running ∧ job.started_at = none then some now
      else job.started_at := by
  simp [update_job_status, startedStep_started_at]

/-- The resulting `completed_at` of an update. -/
lemma update_job_status_completed_at (now : Int) (job : Job) (u : StatusUpdate) :
    (update_job_status now job u).completed_at =
      if u.status.isTerminal then some now else job.completed_at := by
  simp [update_job_status, completedStep_completed_at]

lemma bestFold_spec (jobs : List Job) :
    ∀ (cs : List Node) (b0 : Node) (m0 : Nat), m0 = countRunning jobs b0.id →
      ∀ b m, cs.foldl (bestStep jobs) (some (b0, m0)) = some (b, m) →
        m = countRunning jobs b.id ∧ (b = b0 ∨ b ∈ cs) ∧ m ≤ m0 ∧
          ∀ x ∈ cs, m ≤ countRunning jobs x.id := by
  intro cs
  induction cs with
  | nil =>
      intro b0 m0 h0 b m hf
      simp only [List.foldl_nil, Option.some.injEq, Prod.mk.injEq] at hf
      obtain ⟨hb, hm⟩ := hf
      subst hb; subst hm
      exact ⟨h0, Or.inl rfl, le_refl _, by simp⟩
  | cons c rest ih =>
      intro b0 m0 h0 b m hf
      rw [List.foldl_cons] at hf
      by_cases hlt : countRunning jobs c.id < m0
      · have hstep : bestStep jobs (some (b0, m0)) c = some (c, countRunning jobs c.id) := by
          simp [bestStep, hlt]
        rw [hstep] at hf
        obtain ⟨hm, hmem, hle, hall⟩ := ih c (countRunning jobs c.id) rfl b m hf
        refine ⟨hm, ?_, ?_, ?_⟩
        · rcases hmem with h | h
          · exact Or.inr (h ▸ List.mem_cons_self c rest)
          · exact Or.inr (List.mem_cons_of_mem c h)
        · exact le_trans hle (le_of_lt hlt)
        · intro x hx
          rcases List.mem_cons.mp hx with h | h
          · exact h ▸ hle
          · exact hall x h
      · have hstep : bestStep jobs (some (b0, m0)) c = some (b0, m0) := by
          simp [bestStep, hlt]
        rw [hstep] at hf
        obtain ⟨hm, hmem, hle, hall⟩ := ih b0 m0 h0 b m hf
        refine ⟨hm, ?_, hle, ?_⟩
        · rcases hmem with h | h
          · exact Or.inl h
          · exact Or.inr (List.mem_cons_of_mem c h)
        · intro x hx
          rcases List.mem_cons.mp hx with h | h
          · exact h ▸ le_trans hle (not_lt.mp hlt)
          · exact hall x h

lemma bestFold_isSome (jobs : List Job) :
    ∀ (cs : List Node) (b0 : Node) (m0 : Nat),
      ∃ b m, cs.foldl (bestStep jobs) (some (b0, m0)) = some (b, m) := by
  intro cs
  induction cs with
  | nil => intro b0 m0; exact ⟨b0, m0, rfl⟩
  | cons c rest ih =>
      intro b0 m0
      rw [List.foldl_cons]
      by_cases hlt : countRunning jobs c.id < m0
      · have : bestStep jobs (some (b0, m0)) c = some (c, countRunning jobs c.id) := by
          simp [bestStep, hlt]
        rw [this]; exact ih c _
      · have : bestStep jobs (some (b0, m0)) c = some (b0, m0) := by
          simp [bestStep, hlt]
        rw [this]; exact ih b0 m0

lemma selectBest_eq_none_iff (jobs : List Job) (cs : List Node) :
    selectBest jobs cs = none ↔ cs = [] := by
  constructor
  · intro h
    cases cs with
    | nil => rfl
    | cons c rest =>
        exfalso
        unfold selectBest at h
        rw [List.foldl_cons] at h
        have hstep : bestStep jobs none c = some (c, countRunning jobs c.id) := rfl
        rw [hstep] at h
        obtain ⟨b, m, hf⟩ := bestFold_isSome jobs rest c (countRunning jobs c.id)
        rw [hf] at h
        simp at h
  · intro h; subst h; rfl

lemma selectBest_spec (jobs : List Job) (cs : List Node) (b : Node)
    (h : selectBest jobs cs = some b) :
    b ∈ cs ∧ ∀ x ∈ cs, countRunning jobs b.id ≤ countRunning jobs x.id := by
  cases cs with
  | nil => exact Option.noConfusion h
  | cons c rest =>
      unfold selectBest at h
      rw [List.foldl_cons] at h
      have hstep : bestStep jobs none c = some (c, countRunning jobs c.id) := rfl
      rw [hstep] at h
      obtain ⟨b2, m, hf⟩ := bestFold_isSome jobs rest c (countRunning jobs c.id)
      rw [hf] at h
      obtain ⟨hm, hmem, hle, hall⟩ := bestFold_spec jobs rest c _ rfl b2 m hf
      have hb : b2 = b := by simpa using h
      subst hb
      refine ⟨?_, ?_⟩
      · rcases hmem with h | h
        · exact h ▸ List.mem_cons_self c rest
        · exact List.mem_cons_of_mem c h
      · intro x hx
        have hmx : m ≤ countRunning jobs x.id := by
          rcases List.mem_cons.mp hx with h2 | h2
          · exact h2 ▸ hle
          · exact hall x h2
        rw [← hm]; exact hmx

lemma assign_eq_of_no_candidate (jobs : List Job) (nodes : List Node) (job : Job)
    (h : nodes.filter (isCandidate job) = []) :
    assign_job_to_node jobs nodes job = (job, none) := by
  unfold assign_job_to_node
  rw [h]
  rfl

lemma assign_cases (jobs : List Job) (nodes : List Node) (job : Job) :
    assign_job_to_node jobs nodes job = (job, none) ∨
      ∃ best : Node, assign_job_to_node jobs nodes job =
        ({ job with node_id := some best.id, status := JobStatus.queued },
          some best) := by
  simp only [assign_job_to_node]
  rcases selectBest jobs (nodes.filter (isCandidate job)) with _ | best
  · exact Or.inl rfl
  · exact Or.inr ⟨best, rfl⟩

lemma assignedR_id {a b : Job} (h : assignedR a b) : b.id = a.id := by
  rcases h with h | h
  · rw [h]
  · exact h.2.2

lemma forall2_map_right_mem {R : Job → Job → Prop} (g : Job → Job) :
    ∀ {l1 l2 : List Job}, List.Forall₂ R l1 l2 →
      (∀ a ∈ l1, ∀ b, R a b → R a (g b)) → List.Forall₂ R l1 (l2.map g) := by
  intro l1 l2 h
  induction h with
  | nil => intro _; exact List.Forall₂.nil
  | @cons a b l1t l2t hab htail ih =>
      intro hg
      refine List.Forall₂.cons (hg a (List.mem_cons_self a l1t) b hab) ?_
      exact ih fun x hx y hy => hg x (List.mem_cons_of_mem a hx) y hy

lemma forall2_setJob (orig cur : List Job)
    (h_ids : (orig.map (fun j => j.id)).Nodup)
    (hF : List.Forall₂ assignedR orig cur) (j2 a0 : Job) (ha0 : a0 ∈ orig)
    (hp : a0.status = JobStatus.pending) (hid : j2.id = a0.id)
    (hq : j2.status = JobStatus.queued) :
    List.Forall₂ assignedR orig (setJob cur j2) := by
  unfold setJob
  apply forall2_map_right_mem _ hF
  intro a ha b hab
  by_cases hb : b.id = j2.id
  · have hgb : (if b.id = j2.id then j2 else b) = j2 := by simp [hb]
    rw [hgb]
    have hba : b.id = a.id := assignedR_id hab
    have haid : a.id = a0.id := by rw [← hba, hb, hid]
    have haa0 : a = a0 := List.inj_on_of_nodup_map h_ids ha ha0 haid
    exact Or.inr ⟨haa0 ▸ hp, hq, by rw [hid, ← haid]⟩
  · have hgb : (if b.id = j2.id then j2 else b) = b := by simp [hb]
    rw [hgb]
    exact hab

lemma autoAssign_fold_inv (db : DB)
    (h_ids : (db.jobs.map (fun j => j.id)).Nodup) :
    ∀ (todo : List Job) (st : DB × Nat),
      (∀ j ∈ todo, j ∈ db.jobs ∧ j.status = JobStatus.pending) →
      List.Forall₂ assignedR db.jobs st.1.jobs →
      List.Forall₂ assignedR db.jobs (todo.foldl autoAssignStep st).1.jobs := by
  intro todo
  induction todo with
  | nil => intro st _ hF; exact hF
  | cons j rest ih =>
      intro st htodo hF
      rw [List.foldl_cons]
      apply ih _ fun x hx => htodo x (List.mem_cons_of_mem _ hx)
      rcases assign_cases st.1.jobs st.1.nodes j with heq | ⟨best, heq⟩
      · simp only [autoAssignStep, heq]
        exact hF
      · simp only [autoAssignStep, heq]
        obtain ⟨hjmem, hjpend⟩ := htodo j (List.mem_cons_self j rest)
        exact forall2_setJob db.jobs st.1.jobs h_ids hF _ j hjmem hjpend rfl rfl

lemma filter_map_update (nid : String) (n3 : Node) (hp3 : n3.node_id = nid) :
    ∀ db : List Node, (db.filter (fun n => n.node_id = nid)).length ≤ 1 →
      (∃ n0, db.find? (fun n => n.node_id = nid) = some n0) →
      (db.map fun x => if x.node_id = nid then n3 else x).filter
        (fun n => n.node_id = nid) = [n3] := by
  intro db
  induction db with
  | nil =>
      intro _ hfind
      obtain ⟨n0, h⟩ := hfind
      exact Option.noConfusion h
  | cons x xs ih =>
      intro hlen hfind
      by_cases hx : x.node_id = nid
      · have hxs_all : ∀ a ∈ xs, ¬ a.node_id = nid := by
          rw [List.filter_cons_of_pos (by simp [hx])] at hlen
          simp at hlen
          exact hlen
        rw [List.map_cons, if_pos hx, List.filter_cons_of_pos (by simp [hp3])]
        have hnil : (xs.map fun y => if y.node_id = nid then n3 else y).filter
            (fun n => n.node_id = nid) = [] := by
          rw [List.filter_eq_nil_iff]
          intro b hb
          obtain ⟨a, ha, hfa⟩ := List.mem_map.mp hb
          have hpa := hxs_all a ha
          rw [← hfa, if_neg hpa]
          simp [hpa]
        rw [hnil]
      · rw [List.map_cons, if_neg hx, List.filter_cons_of_neg (by simp [hx])]
        apply ih
        · rw [List.filter_cons_of_neg (by simp [hx])] at hlen
          exact hlen
        · obtain ⟨n0, h⟩ := hfind
          rw [List.find?_cons_of_neg _ (by simp [hx])] at h
          exact ⟨n0, h⟩

lemma find?_eq_head?_filter (nid : String) :
    ∀ l : List Node,
      l.find? (fun n => n.node_id = nid) =
        (l.filter (fun n => n.node_id = nid)).head? := by
  intro l
  induction l with
  | nil => rfl
  | cons x xs ih =>
      by_cases hx : x.node_id = nid
      · rw [List.find?_cons_of_pos _ (by simp [hx]),
          List.filter_cons_of_pos (by simp [hx])]
        rfl
      · rw [List.find?_cons_of_neg _ (by simp [hx]),
          List.filter_cons_of_neg (by simp [hx])]
        exact ih

lemma updateSystemInfo_identity (n : Node) (i : SystemInfo) :
    (updateSystemInfo n i).node_id = n.node_id
    ∧ (updateSystemInfo n i).name = n.name
    ∧ (updateSystemInfo n i).host = n.host
    ∧ (updateSystemInfo n i).port = n.port
    ∧ (updateSystemInfo n i).status = n.status := by
  rcases i with ⟨c, m, g, gi, st, su⟩
  unfold updateSystemInfo
  cases c <;> cases m <;> cases g <;> cases gi <;> cases st <;> cases su <;>
    exact ⟨rfl, rfl, rfl, rfl, rfl⟩

lemma register_node_spec (db : List Node) (key now : Int) (fresh_pk : Nat)
    (nid name host : String) (port : Nat) (sp : Option String)
    (si : Option SystemInfo)
    (hlen : (db.filter (fun n => n.node_id = nid)).length ≤ 1) :
    (register_node db key now fresh_pk nid name host port sp si).1.filter
        (fun n => n.node_id = nid) =
      [(register_node db key now fresh_pk nid name host port sp si).2.1]
    ∧ (register_node db key now fresh_pk nid name host port sp si).2.1.node_id = nid
    ∧ (register_node db key now fresh_pk nid name host port sp si).2.1.name = name
    ∧ (register_node db key now fresh_pk nid name host port sp si).2.1.host = host
    ∧ (register_node db key now fresh_pk nid name host port sp si).2.1.port = port
    ∧ (register_node db key now fresh_pk nid name host port sp si).2.1.status =
        NodeStatus.online
    ∧ (register_node db key now fresh_pk nid name host port sp si).2.2 =
        create_access_token key now ("agent:" ++ nid) "agent" (some nid)
          agentTokenExpiry := by
  simp only [register_node]
  rcases hfind : db.find? (fun n => n.node_id = nid) with _ | n0
  · -- insert branch
    rw [hfind]
    dsimp only
    have hdbnil : db.filter (fun n => n.node_id = nid) = [] := by
      rw [find?_eq_head?_filter] at hfind
      cases h : db.filter (fun n => n.node_id = nid) with
      | nil => rfl
      | cons a l => rw [h] at hfind; exact Option.noConfusion hfind
    rcases si with _ | i
    · dsimp only
      refine ⟨?_, rfl, rfl, rfl, rfl, rfl, rfl⟩
      rw [List.filter_append, hdbnil, List.nil_append,
        List.filter_cons_of_pos (by simp)]
      rfl
    · dsimp only
      obtain ⟨h1, h2, h3, h4, h5⟩ := updateSystemInfo_identity
        { id := fresh_pk, node_id := nid, name := name, node_type := "worker",
          host := host, port := port, status := NodeStatus.online,
          storage_path := sp, last_heartbeat := some now } i
      refine ⟨?_, by rw [h1], by rw [h2], by rw [h3], by rw [h4], by rw [h5], rfl⟩
      rw [List.filter_append, hdbnil, List.nil_append,
        List.filter_cons_of_pos (by simp [h1])]
      rfl
  · -- update branch
    rw [hfind]
    dsimp only
    have hn0 : n0.node_id = nid := by
      have := List.find?_some hfind
      simpa using this
    -- n1 fields
    rcases si with _ | i
    · dsimp only
      by_cases hsp : strTruthy sp
      · rw [if_pos hsp]
        refine ⟨?_, by exact hn0, rfl, rfl, rfl, rfl, rfl⟩
        refine filter_map_update nid _ ?_ db hlen ⟨n0, hfind⟩
        exact hn0
      · rw [if_neg hsp]
        refine ⟨?_, by exact hn0, rfl, rfl, rfl, rfl, rfl⟩
        refine filter_map_update nid _ ?_ db hlen ⟨n0, hfind⟩
        exact hn0
    · dsimp only
      by_cases hsp : strTruthy sp
      · rw [if_pos hsp]
        obtain ⟨h1, h2, h3, h4, h5⟩ := updateSystemInfo_identity
          { n0 with
              name := name, host := host, port := port,
              status := NodeStatus.online, last_heartbeat := some now,
              storage_path := sp } i
        refine ⟨?_, by rw [h1]; exact hn0, by rw [h2], by rw [h3], by rw [h4],
          by rw [h5], rfl⟩
        refine filter_map_update nid _ ?_ db hlen ⟨n0, hfind⟩
        rw [h1]; exact hn0
      · rw [if_neg hsp]
        obtain ⟨h1, h2, h3, h4, h5⟩ := updateSystemInfo_identity
          { n0 with
              name := name, host := host, port := port,
              status := NodeStatus.online, last_heartbeat := some now } i
        refine ⟨?_, by rw [h1]; exact hn0, by rw [h2], by rw [h3], by rw [h4],
          by rw [h5], rfl⟩
        refine filter_map_update nid _ ?_ db hlen ⟨n0, hfind⟩
        rw [h1]; exact hn0

/-- The capacity columns written by `NodeService._update_system_info`:
each key present in the `system_info` dict overwrites its column, and
an absent key leaves the column as it was. -/
lemma updateSystemInfo_capacity (n : Node) (i : SystemInfo) :
    (updateSystemInfo n i).cpu_count =
      (match i.cpu_count with | some v => some v | none => n.cpu_count)
    ∧ (updateSystemInfo n i).memory_total_gb =
      (match i.memory_total_gb with | some v => some v | none => n.memory_total_gb)
    ∧ (updateSystemInfo n i).gpu_count =
      (match i.gpu_count with | some v => some v | none => n.gpu_count)
    ∧ (updateSystemInfo n i).gpu_info =
      (match i.gpu_info with | some v => some v | none => n.gpu_info)
    ∧ (updateSystemInfo n i).storage_total_gb =
      (match i.storage_total_gb with | some v => some v | none => n.storage_total_gb)
    ∧ (updateSystemInfo n i).storage_used_gb =
      (match i.storage_used_gb with | some v => some v | none => n.storage_used_gb) := by
  rcases i with ⟨c, m, g, gi, st, su⟩
  unfold updateSystemInfo
  cases c <;> cases m <;> cases g <;> cases gi <;> cases st <;> cases su <;>
    exact ⟨rfl, rfl, rfl, rfl, rfl, rfl⟩

/-- A registration that carries a `system_info` dict returns a record
obtained by applying `_update_system_info` to some base record (the
updated existing row or the freshly created one). -/
lemma register_node_sysinfo (db : List Node) (key now : Int) (f : Nat)
    (nid name host : String) (port : Nat) (sp : Option String)
    (i : SystemInfo) :
    ∃ base : Node,
      (register_node db key now f nid name host port sp (some i)).2.1 =
        updateSystemInfo base i := by
  simp only [register_node]
  rcases hfind : db.find? (fun n => n.node_id = nid) with _ | n0 <;>
    rw [hfind] <;> dsimp only <;> exact ⟨_, rfl⟩

lemma mem_stale_ids_iff (now t : Int) (nodes : List Node)
    (hnd : (nodes.map (fun n => n.node_id)).Nodup) (b : Node) (hb : b ∈ nodes) :
    b.node_id ∈ (nodes.filter (schedulerStale now t)).map (fun n => n.node_id)
      ↔ schedulerStale now t b = true := by
  constructor
  · intro h
    obtain ⟨a, ha, haid⟩ := List.mem_map.mp h
    obtain ⟨hamem, hastale⟩ := List.mem_filter.mp ha
    have hab : a = b := List.inj_on_of_nodup_map hnd hamem hb haid
    rw [← hab]
    exact hastale
  · intro h
    exact List.mem_map.mpr ⟨b, List.mem_filter.mpr ⟨hb, h⟩, rfl⟩

lemma scheduler_check_eq (now t : Int) (nodes : List Node)
    (hnd : (nodes.map (fun n => n.node_id)).Nodup) :
    scheduler_check_offline_nodes now t nodes =
      ((nodes.map fun n =>
          if schedulerStale now t n then { n with status := NodeStatus.offline }
          else n),
        (nodes.filter (schedulerStale now t)).length) := by
  simp only [scheduler_check_offline_nodes]
  refine Prod.ext ?_ ?_
  · apply List.map_congr_left
    intro n hn
    by_cases hs : schedulerStale now t n = true
    · rw [if_pos ((mem_stale_ids_iff now t nodes hnd n hn).mpr hs), if_pos hs]
    · rw [if_neg (fun hc => hs ((mem_stale_ids_iff now t nodes hnd n hn).mp hc)),
        if_neg hs]
  · simp

lemma stale_agree (now t : Int) (n : Node) (h : n.is_active = true) :
    schedulerStale now t n = serviceStale now t n := by
  simp only [schedulerStale, serviceStale]
  rw [decide_eq_decide]
  constructor
  · intro hc
    exact ⟨hc.1, hc.2.2⟩
  · intro hc
    exact ⟨hc.1, by simp [h], hc.2⟩

lemma jwt_decode_eq_some {key now : Int} {tok : Token} {p : JwtPayload}
    (h : jwt_decode key now tok = some p) :
    p = tok.payload ∧ tok.sig = signature key tok.payload
      ∧ now < tok.payload.exp := by
  unfold jwt_decode at h
  by_cases hc : tok.sig = signature key tok.payload ∧ now < tok.payload.exp
  · rw [if_pos hc] at h
    injection h with h2
    exact ⟨h2.symm, hc.1, hc.2⟩
  · rw [if_neg hc] at h
    exact Option.noConfusion h

/-! ### Claim theorems -/

/-- Claim C1 counterexample: the claim is false on the code.  `update_job_status` has no
terminal-state guard: a COMPLETED job submitted a RUNNING update comes
back with status RUNNING — the transition out of the terminal state
succeeds and the status does not stay as it was. -/
theorem C1_counterexample :
    JobStatus.isTerminal JobStatus.completed = true ∧
      (update_job_status 9 { id := 1, status := JobStatus.completed }
          { status := JobStatus.running }).status = JobStatus.running :=
  ⟨rfl, rfl⟩

/-- Claim C1 (amended): `JobService.update_job_status` performs no
terminal-state check at all: for every job — in particular one whose
current status is COMPLETED, FAILED or CANCELLED — the requested status
is applied unconditionally, so no status change is ever rejected. -/
theorem C1_amended (now : Int) (job : Job) (u : StatusUpdate) :
    (update_job_status now job u).status = u.status :=
  update_job_status_status now job u

/-- Claim C2 counterexample: the claim is false on the code.  `completed_at` is overwritten
by a repeated terminal update: a COMPLETED job with `completed_at = 5`
updated again to COMPLETED at time 9 ends with `completed_at = 9`. -/
theorem C2_counterexample :
    ({ id := 1, status := JobStatus.completed, completed_at := some 5 :
        Job }).completed_at = some 5 ∧
      (update_job_status 9
          { id := 1, status := JobStatus.completed, completed_at := some 5 }
          { status := JobStatus.completed }).completed_at = some 9 :=
  ⟨rfl, rfl⟩

/-- Claim C2 (amended): `started_at` is set at most once — only on a
transition into RUNNING with `started_at` still unset — and is never
overwritten afterwards; `completed_at`, however, is assigned on every
update whose new status is terminal (and only on those), so it is
written on entry to a terminal state but overwritten by any later
terminal update rather than being set exactly once. -/
theorem C2_amended (now : Int) (job : Job) (u : StatusUpdate) :
    (job.started_at ≠ none →
      (update_job_status now job u).started_at = job.started_at)
    ∧ (u.status ≠ JobStatus.running →
      (update_job_status now job u).started_at = job.started_at)
    ∧ (u.status = JobStatus.running → job.started_at = none →
      (update_job_status now job u).started_at = some now)
    ∧ (u.status.isTerminal = true →
      (update_job_status now job u).completed_at = some now)
    ∧ (u.status.isTerminal = false →
      (update_job_status now job u).completed_at = job.completed_at) := by
  rw [update_job_status_started_at, update_job_status_completed_at]
  refine ⟨fun h => ?_, fun h => ?_, fun h1 h2 => ?_, fun h => ?_, fun h => ?_⟩ <;>
    split_ifs <;> simp_all

/-- Witness for claim C2 (amended) at concrete inputs: a terminal update
stamps `completed_at` with the update time, and an update that is not
into RUNNING leaves a set `started_at` alone. -/
theorem C2_witness :
    (update_job_status 9
        { id := 1, status := JobStatus.running, started_at := some 3 }
        { status := JobStatus.completed }).completed_at = some 9
    ∧ (update_job_status 9
        { id := 1, status := JobStatus.running, started_at := some 3 }
        { status := JobStatus.completed }).started_at = some 3 :=
  ⟨(C2_amended 9 { id := 1, status := JobStatus.running, started_at := some 3 }
      { status := JobStatus.completed }).2.2.2.1 rfl,
   (C2_amended 9 { id := 1, status := JobStatus.running, started_at := some 3 }
      { status := JobStatus.completed }).2.1 (by decide)⟩

/-- Claim C3: `assign_job_to_node` considers exactly the nodes that are
online and `is_active` and satisfy the job's requested resources (each
checked only when requested, per `isCandidate`); any node it selects is
such a candidate with the fewest currently-RUNNING jobs among all
candidates; and when no candidate exists it returns `none` without
raising, with the job record (status and `node_id` included) unchanged. -/
theorem C3_scheduler (jobs : List Job) (nodes : List Node) (job : Job) :
    (∀ n : Node, (assign_job_to_node jobs nodes job).2 = some n →
      isCandidate job n = true ∧ n ∈ nodes ∧
        ∀ m ∈ nodes, isCandidate job m = true →
          countRunning jobs n.id ≤ countRunning jobs m.id)
    ∧ ((∀ m ∈ nodes, isCandidate job m = false) →
      assign_job_to_node jobs nodes job = (job, none)) := by
  constructor
  · intro n hn
    simp only [assign_job_to_node] at hn
    rcases hsel : selectBest jobs (nodes.filter (isCandidate job)) with _ | best
    · rw [hsel] at hn; exact Option.noConfusion hn
    · rw [hsel] at hn
      simp only [Option.some.injEq] at hn
      subst hn
      obtain ⟨hmem, hmin⟩ := selectBest_spec jobs _ best hsel
      have hcand := List.mem_filter.mp hmem
      refine ⟨hcand.2, hcand.1, ?_⟩
      intro m hm hcm
      exact hmin m (List.mem_filter.mpr ⟨hm, hcm⟩)
  · intro h
    apply assign_eq_of_no_candidate
    rw [List.filter_eq_nil_iff]
    intro a ha
    rw [h a ha]
    exact Bool.false_ne_true

/-- Witness for claim C3 at concrete inputs: with two equally-capable online
nodes, one running 3 jobs and one running 0, the scheduler selects the
idle one (so the minimality conclusion holds there), and with no
candidate node at all the job is returned unchanged with no node. -/
theorem C3_witness :
    isCandidate c3job c3nodeB = true
    ∧ countRunning c3jobs c3nodeB.id ≤ countRunning c3jobs c3nodeA.id
    ∧ assign_job_to_node c3jobs [] c3job = (c3job, none) :=
  ⟨((C3_scheduler c3jobs [c3nodeA, c3nodeB] c3job).1 c3nodeB (by decide)).1,
   ((C3_scheduler c3jobs [c3nodeA, c3nodeB] c3job).1 c3nodeB (by decide)).2.2
     c3nodeA (by decide) (by decide),
   (C3_scheduler c3jobs [] c3job).2 (by simp)⟩

/-- Claim C4: counterexample — `assign_job_to_node` performs no
PENDING check at transition time: handed a job whose status is RUNNING
(no longer PENDING) and one online node, the scheduler still assigns it
and moves it to QUEUED, so a job off PENDING can be transitioned by the
scheduler. -/
theorem C4_counterexample :
    c4runningJob.status ≠ JobStatus.pending ∧
      (assign_job_to_node [] [c4node] c4runningJob).1.status = JobStatus.queued ∧
      (assign_job_to_node [] [c4node] c4runningJob).2 = some c4node := by
  decide

/-- Claim C4 (amended): the PENDING check exists only at scan time.
`auto_assign_pending_jobs` selects the jobs whose status is PENDING
when the pass starts, so in a sequential pass every job record it
changes was PENDING at scan time and is changed only to QUEUED (all
other records are untouched); but `assign_job_to_node` itself
transitions whatever job it is handed without re-checking PENDING. -/
theorem C4_amended (db : DB) (h : (db.jobs.map (fun j => j.id)).Nodup) :
    List.Forall₂ assignedR db.jobs (auto_assign_pending_jobs db).1.jobs := by
  unfold auto_assign_pending_jobs
  apply autoAssign_fold_inv db h
  · intro j hj
    have hm := List.mem_filter.mp hj
    exact ⟨hm.1, by simpa using hm.2⟩
  · exact List.forall₂_same.mpr fun a _ => Or.inl rfl

/-- Witness for claim C4 (amended) on a concrete one-job store. -/
theorem C4_witness :
    List.Forall₂ assignedR c4db.jobs (auto_assign_pending_jobs c4db).1.jobs :=
  C4_amended c4db (by decide)

/-- Claim C5: `register_node` is an idempotent upsert.  Registering the
same `node_id` twice leaves exactly one record with that id, carrying
the latest name/host/port, status online, and every capacity value
(cpu/memory/gpu/storage fields) reported in the second call's
`system_info`; and each of the two calls mints a credential stamped
with its own call time plus the one-year agent expiry, bound to the
node id — a fresh credential per call. -/
theorem C5_register_idempotent (db : List Node) (key t1 t2 : Int)
    (f1 f2 : Nat) (nid name1 host1 name2 host2 : String) (port1 port2 : Nat)
    (sp1 sp2 : Option String) (si1 si2 : Option SystemInfo)
    (hlen : (db.filter (fun n => n.node_id = nid)).length ≤ 1) :
    ((register_node (register_node db key t1 f1 nid name1 host1 port1 sp1
        si1).1 key t2 f2 nid name2 host2 port2 sp2 si2).1.filter
          (fun n => n.node_id = nid)).length = 1
    ∧ (register_node (register_node db key t1 f1 nid name1 host1 port1 sp1
        si1).1 key t2 f2 nid name2 host2 port2 sp2 si2).2.1.name = name2
    ∧ (register_node (register_node db key t1 f1 nid name1 host1 port1 sp1
        si1).1 key t2 f2 nid name2 host2 port2 sp2 si2).2.1.host = host2
    ∧ (register_node (register_node db key t1 f1 nid name1 host1 port1 sp1
        si1).1 key t2 f2 nid name2 host2 port2 sp2 si2).2.1.port = port2
    ∧ (register_node (register_node db key t1 f1 nid name1 host1 port1 sp1
        si1).1 key t2 f2 nid name2 host2 port2 sp2 si2).2.1.status =
        NodeStatus.online
    ∧ (register_node db key t1 f1 nid name1 host1 port1 sp1
        si1).2.2.payload.exp = t1 + agentTokenExpiry
    ∧ (register_node db key t1 f1 nid name1 host1 port1 sp1
        si1).2.2.payload.node_id = some nid
    ∧ (register_node (register_node db key t1 f1 nid name1 host1 port1 sp1
        si1).1 key t2 f2 nid name2 host2 port2 sp2 si2).2.2.payload.exp =
        t2 + agentTokenExpiry
    ∧ (∀ (i : SystemInfo) (v : Int), si2 = some i → i.cpu_count = some v →
        (register_node (register_node db key t1 f1 nid name1 host1 port1 sp1
          si1).1 key t2 f2 nid name2 host2 port2 sp2 si2).2.1.cpu_count =
          some v)
    ∧ (∀ (i : SystemInfo) (v : Int), si2 = some i →
        i.memory_total_gb = some v →
        (register_node (register_node db key t1 f1 nid name1 host1 port1 sp1
          si1).1 key t2 f2 nid name2 host2 port2 sp2 si2).2.1.memory_total_gb =
          some v)
    ∧ (∀ (i : SystemInfo) (v : Int), si2 = some i → i.gpu_count = some v →
        (register_node (register_node db key t1 f1 nid name1 host1 port1 sp1
          si1).1 key t2 f2 nid name2 host2 port2 sp2 si2).2.1.gpu_count =
          some v)
    ∧ (∀ (i : SystemInfo) (v : String), si2 = some i → i.gpu_info = some v →
        (register_node (register_node db key t1 f1 nid name1 host1 port1 sp1
          si1).1 key t2 f2 nid name2 host2 port2 sp2 si2).2.1.gpu_info =
          some v)
    ∧ (∀ (i : SystemInfo) (v : Int), si2 = some i →
        i.storage_total_gb = some v →
        (register_node (register_node db key t1 f1 nid name1 host1 port1 sp1
          si1).1 key t2 f2 nid name2 host2 port2 sp2
          si2).2.1.storage_total_gb = some v)
    ∧ (∀ (i : SystemInfo) (v : Int), si2 = some i →
        i.storage_used_gb = some v →
        (register_node (register_node db key t1 f1 nid name1 host1 port1 sp1
          si1).1 key t2 f2 nid name2 host2 port2 sp2
          si2).2.1.storage_used_gb = some v) := by
  obtain ⟨s1f, _, _, _, _, _, s1tok⟩ :=
    register_node_spec db key t1 f1 nid name1 host1 port1 sp1 si1 hlen
  obtain ⟨s2f, _, s2name, s2host, s2port, s2status, s2tok⟩ :=
    register_node_spec (register_node db key t1 f1 nid name1 host1 port1 sp1
      si1).1 key t2 f2 nid name2 host2 port2 sp2 si2 (by rw [s1f]; simp)
  refine ⟨by rw [s2f]; rfl, s2name, s2host, s2port, s2status, ?_, ?_, ?_,
    ?_, ?_, ?_, ?_, ?_, ?_⟩
  · rw [s1tok]; rfl
  · rw [s1tok]; rfl
  · rw [s2tok]; rfl
  · intro i v hsi hv
    subst hsi
    obtain ⟨base, hbase⟩ := register_node_sysinfo (register_node db key t1 f1
      nid name1 host1 port1 sp1 si1).1 key t2 f2 nid name2 host2 port2 sp2 i
    rw [hbase, (updateSystemInfo_capacity base i).1, hv]
  · intro i v hsi hv
    subst hsi
    obtain ⟨base, hbase⟩ := register_node_sysinfo (register_node db key t1 f1
      nid name1 host1 port1 sp1 si1).1 key t2 f2 nid name2 host2 port2 sp2 i
    rw [hbase, (updateSystemInfo_capacity base i).2.1, hv]
  · intro i v hsi hv
    subst hsi
    obtain ⟨base, hbase⟩ := register_node_sysinfo (register_node db key t1 f1
      nid name1 host1 port1 sp1 si1).1 key t2 f2 nid name2 host2 port2 sp2 i
    rw [hbase, (updateSystemInfo_capacity base i).2.2.1, hv]
  · intro i v hsi hv
    subst hsi
    obtain ⟨base, hbase⟩ := register_node_sysinfo (register_node db key t1 f1
      nid name1 host1 port1 sp1 si1).1 key t2 f2 nid name2 host2 port2 sp2 i
    rw [hbase, (updateSystemInfo_capacity base i).2.2.2.1, hv]
  · intro i v hsi hv
    subst hsi
    obtain ⟨base, hbase⟩ := register_node_sysinfo (register_node db key t1 f1
      nid name1 host1 port1 sp1 si1).1 key t2 f2 nid name2 host2 port2 sp2 i
    rw [hbase, (updateSystemInfo_capacity base i).2.2.2.2.1, hv]
  · intro i v hsi hv
    subst hsi
    obtain ⟨base, hbase⟩ := register_node_sysinfo (register_node db key t1 f1
      nid name1 host1 port1 sp1 si1).1 key t2 f2 nid name2 host2 port2 sp2 i
    rw [hbase, (updateSystemInfo_capacity base i).2.2.2.2.2, hv]

/-- Witness for claim C5 on a concrete double registration, including
the capacity fields carried over from the second call's system info. -/
theorem C5_witness :
    ((register_node (register_node [] 7 100 1 "w1" "worker" "10.0.0.1" 8001
        none (some c5sys)).1 7 200 2 "w1" "worker" "10.0.0.2" 8002 none
        (some c5sys)).1.filter (fun n => n.node_id = "w1")).length = 1
    ∧ (register_node (register_node [] 7 100 1 "w1" "worker" "10.0.0.1" 8001
        none (some c5sys)).1 7 200 2 "w1" "worker" "10.0.0.2" 8002 none
        (some c5sys)).2.1.host = "10.0.0.2"
    ∧ (register_node (register_node [] 7 100 1 "w1" "worker" "10.0.0.1" 8001
        none (some c5sys)).1 7 200 2 "w1" "worker" "10.0.0.2" 8002 none
        (some c5sys)).2.1.cpu_count = some 8
    ∧ (register_node (register_node [] 7 100 1 "w1" "worker" "10.0.0.1" 8001
        none (some c5sys)).1 7 200 2 "w1" "worker" "10.0.0.2" 8002 none
        (some c5sys)).2.1.gpu_count = some 1 :=
  ⟨(C5_register_idempotent [] 7 100 200 1 2 "w1" "worker" "10.0.0.1" "worker"
      "10.0.0.2" 8001 8002 none none (some c5sys) (some c5sys)
      (by decide)).1,
   (C5_register_idempotent [] 7 100 200 1 2 "w1" "worker" "10.0.0.1" "worker"
      "10.0.0.2" 8001 8002 none none (some c5sys) (some c5sys)
      (by decide)).2.2.1,
   (C5_register_idempotent [] 7 100 200 1 2 "w1" "worker" "10.0.0.1" "worker"
      "10.0.0.2" 8001 8002 none none (some c5sys) (some c5sys)
      (by decide)).2.2.2.2.2.2.2.2.1 c5sys 8 rfl rfl,
   (C5_register_idempotent [] 7 100 200 1 2 "w1" "worker" "10.0.0.1" "worker"
      "10.0.0.2" 8001 8002 none none (some c5sys) (some c5sys)
      (by decide)).2.2.2.2.2.2.2.2.2.2.1 c5sys 1 rfl rfl⟩

/-- Claim C6: the cancel endpoint fails with the 400
cannot-cancel-in-this-status response when the job's status is terminal
— returning an error, so the store is unchanged — and otherwise
replaces the job's status with CANCELLED, leaving `node_id` (and every
other field) as it was. -/
theorem C6_cancel (jobs : List Job) (uid : Nat) (role : String) (jid : Nat)
    (job : Job) (hfind : jobs.find? (fun j => j.id = jid) = some job)
    (hperm : ¬(job.owner_id ≠ uid ∧ role = "member")) :
    (job.status.isTerminal = true →
      cancel_job jobs uid role jid = Except.error CancelErr.badRequest)
    ∧ (job.status.isTerminal = false →
      cancel_job jobs uid role jid =
        Except.ok (setJob jobs { job with status := JobStatus.cancelled },
          { job with status := JobStatus.cancelled })
      ∧ ({ job with status := JobStatus.cancelled } : Job).node_id =
          job.node_id) := by
  constructor
  · intro hterm
    simp only [cancel_job]
    rw [hfind]
    dsimp only
    rw [if_neg hperm, if_pos hterm]
  · intro hterm
    refine ⟨?_, rfl⟩
    simp only [cancel_job]
    rw [hfind]
    dsimp only
    rw [if_neg hperm, if_neg (by rw [hterm]; exact Bool.false_ne_true)]

/-- Witness for claim C6 at concrete inputs. -/
theorem C6_witness :
    cancel_job [c6done] 4 "member" 1 = Except.error CancelErr.badRequest
    ∧ cancel_job [c6pend] 4 "member" 2 =
        Except.ok (setJob [c6pend] { c6pend with status := JobStatus.cancelled },
          { c6pend with status := JobStatus.cancelled })
    ∧ ({ c6pend with status := JobStatus.cancelled } : Job).node_id =
        c6pend.node_id :=
  ⟨(C6_cancel [c6done] 4 "member" 1 c6done (by decide) (by decide)).1 rfl,
   ((C6_cancel [c6pend] 4 "member" 2 c6pend (by decide) (by decide)).2 rfl).1,
   ((C6_cancel [c6pend] 4 "member" 2 c6pend (by decide) (by decide)).2 rfl).2⟩

/-- Claim C7 counterexample — an online node whose heartbeat is 91s old but
whose `is_active` flag is cleared is not transitioned to offline by the
background task, although the claim requires every online node with a
stale heartbeat to be marked. -/
theorem C7_counterexample :
    c7inactive.status = NodeStatus.online
    ∧ sqlLt c7inactive.last_heartbeat (100 - 90) = true
    ∧ scheduler_check_offline_nodes 100 90 [c7inactive] = ([c7inactive], 0) := by
  decide

/-- Claim C7 (amended): the background task marks a node offline
exactly when it is online, `is_active`, and its `last_heartbeat` is
present and strictly older than `now - threshold`; online nodes with
`is_active` cleared are skipped even with a stale heartbeat.  With the
default 90s threshold a 91s-old heartbeat is marked and an 89s-old one
is not (see the witness). -/
theorem C7_amended (now t : Int) (nodes : List Node)
    (hnd : (nodes.map (fun n => n.node_id)).Nodup) :
    scheduler_check_offline_nodes now t nodes =
      ((nodes.map fun n =>
          if n.status = NodeStatus.online ∧ n.is_active
              ∧ sqlLt n.last_heartbeat (now - t) then
            { n with status := NodeStatus.offline }
          else n),
        (nodes.filter (schedulerStale now t)).length) := by
  rw [scheduler_check_eq now t nodes hnd]
  refine Prod.ext ?_ rfl
  apply List.map_congr_left
  intro n _
  by_cases hs : schedulerStale now t n = true
  · rw [if_pos hs, if_pos (of_decide_eq_true hs)]
  · rw [if_neg hs, if_neg (fun hc => hs (decide_eq_true hc))]

/-- Witness for claim C7 (amended) at the claim's own instances: at `now =
100` with threshold 90s, a node whose heartbeat is 91s old is marked
offline and a node whose heartbeat is 89s old is not. -/
theorem C7_witness :
    scheduler_check_offline_nodes 100 90 [c7stale91, c7fresh89] =
      ([{ c7stale91 with status := NodeStatus.offline }, c7fresh89], 1) := by
  rw [C7_amended 100 90 [c7stale91, c7fresh89] (by decide)]
  rfl

/-- Claim C8: credential round-trip and uniform rejection.  The token
minted while registering `nid` verifies back to exactly the registered
node record; and every failing credential — altered signature bytes or
wrong key, expired, or wrong token kind — makes `verify_agent_token`
return `none`, the same value as a missing credential, so failures are
indistinguishable to the caller. -/
theorem C8_credential (db : List Node) (key t now : Int) (f : Nat)
    (nid name host : String) (port : Nat) (sp : Option String)
    (si : Option SystemInfo)
    (hlen : (db.filter (fun n => n.node_id = nid)).length ≤ 1)
    (hnid : nid ≠ "") (hexp : now < t + agentTokenExpiry) :
    verify_agent_token (register_node db key t f nid name host port sp si).1
        key now
        (some (register_node db key t f nid name host port sp si).2.2) =
      some (register_node db key t f nid name host port sp si).2.1
    ∧ (register_node db key t f nid name host port sp si).2.1.node_id = nid
    ∧ (∀ tok : Token, tok.sig ≠ signature key tok.payload →
        verify_agent_token db key now (some tok) = none)
    ∧ (∀ tok : Token, tok.payload.exp ≤ now →
        verify_agent_token db key now (some tok) = none)
    ∧ (∀ tok : Token, tok.payload.type ≠ "agent" →
        verify_agent_token db key now (some tok) = none)
    ∧ verify_agent_token db key now none = none := by
  obtain ⟨sfil, snid, _, _, _, _, stok⟩ :=
    register_node_spec db key t f nid name host port sp si hlen
  refine ⟨?_, snid, ?_, ?_, ?_, rfl⟩
  · have hdec : jwt_decode key now
        (create_access_token key t ("agent:" ++ nid) "agent" (some nid)
          agentTokenExpiry) =
        some
          { sub := "agent:" ++ nid, type := "agent", node_id := some nid,
            exp := t + agentTokenExpiry } := by
      unfold jwt_decode create_access_token
      exact if_pos ⟨rfl, hexp⟩
    rw [stok]
    unfold verify_agent_token
    dsimp only
    rw [hdec]
    dsimp only
    rw [if_neg (by simp)]
    rw [if_neg (by simp [strTruthy, hnid])]
    show (register_node db key t f nid name host port sp si).1.find?
        (fun n => n.node_id = nid) = _
    rw [find?_eq_head?_filter nid, sfil]
    rfl
  · intro tok hsig
    rcases hd : jwt_decode key now tok with _ | p
    · simp [verify_agent_token, hd]
    · exact absurd (jwt_decode_eq_some hd).2.1 hsig
  · intro tok hexp2
    rcases hd : jwt_decode key now tok with _ | p
    · simp [verify_agent_token, hd]
    · exact absurd (jwt_decode_eq_some hd).2.2 (not_lt.mpr hexp2)
  · intro tok htype
    rcases hd : jwt_decode key now tok with _ | p
    · simp [verify_agent_token, hd]
    · have hp := (jwt_decode_eq_some hd).1
      simp [verify_agent_token, hd, hp, htype]

/-- Witness for claim C8 at concrete inputs: the credential issued while
registering `w1` verifies back to the registered node, and the same
credential with its signature bytes altered verifies to nothing. -/
theorem C8_witness :
    verify_agent_token c8reg.1 7 200 (some c8reg.2.2) = some c8reg.2.1
    ∧ verify_agent_token [] 7 200
        (some { payload := c8reg.2.2.payload, sig := c8reg.2.2.sig + 1 }) =
      none :=
  ⟨(C8_credential [] 7 100 200 1 "w1" "worker one" "10.0.0.1" 8001 none none
      (by decide) (by decide) (by decide)).1,
   (C8_credential [] 7 100 200 1 "w1" "worker one" "10.0.0.1" 8001 none none
      (by decide) (by decide) (by decide)).2.2.1
     { payload := c8reg.2.2.payload, sig := c8reg.2.2.sig + 1 } (by decide)⟩

/-- Claim C9: the RPC client's transport-failure discipline.  On an
`httpx.RequestError` the health probe returns `false` (it is a total
boolean function and raises nothing), while clone, pull and delete
surface the distinguished `WorkerUnreachableError` — the only error the
client can raise. -/
theorem C9_worker_client (node : ClientNode) (msg : String) :
    check_node_online node (Transport.reqError msg) = false
    ∧ (∃ m, clone_project node (Transport.reqError msg) =
        Except.error (WorkerErr.unreachable m))
    ∧ (∃ m, pull_project node (Transport.reqError msg) =
        Except.error (WorkerErr.unreachable m))
    ∧ (∃ m, delete_project node (Transport.reqError msg) =
        Except.error (WorkerErr.unreachable m)) := by
  refine ⟨?_, ?_, ?_, ?_⟩
  · unfold check_node_online
    split_ifs <;> rfl
  · unfold clone_project
    split_ifs
    · exact ⟨_, rfl⟩
    · exact ⟨_, rfl⟩
  · unfold pull_project
    split_ifs
    · exact ⟨_, rfl⟩
    · exact ⟨_, rfl⟩
  · unfold delete_project
    split_ifs
    · exact ⟨_, rfl⟩
    · exact ⟨_, rfl⟩

/-- Claim C10 counterexample — on a node table holding one online node with
a stale heartbeat and `is_active = false`, the service method marks the
node offline while the background task marks nothing, so the two
implementations are not equivalent. -/
theorem C10_counterexample :
    (service_check_offline_nodes 100 90 [c10inactive]).2 = ["dis"]
    ∧ (scheduler_check_offline_nodes 100 90 [c10inactive]).2 = 0
    ∧ (service_check_offline_nodes 100 90 [c10inactive]).1 ≠
        (scheduler_check_offline_nodes 100 90 [c10inactive]).1 := by
  decide

/-- Claim C10 (amended): the two offline-detection implementations
agree exactly on active nodes: on a table whose nodes are all
`is_active`, the background task and the service method produce the
same updated table and mark the same number of nodes.  (They differ on
inactive online stale nodes — see the counterexample.) -/
theorem C10_amended (now t : Int) (nodes : List Node)
    (hnd : (nodes.map (fun n => n.node_id)).Nodup)
    (hact : ∀ n ∈ nodes, n.is_active = true) :
    (scheduler_check_offline_nodes now t nodes).1 =
      (service_check_offline_nodes now t nodes).1
    ∧ (scheduler_check_offline_nodes now t nodes).2 =
      (service_check_offline_nodes now t nodes).2.length := by
  rw [scheduler_check_eq now t nodes hnd]
  constructor
  · simp only [service_check_offline_nodes]
    apply List.map_congr_left
    intro n hn
    rw [stale_agree now t n (hact n hn)]
  · simp only [service_check_offline_nodes, List.length_map]
    congr 1
    apply List.filter_congr
    intro n hn
    rw [stale_agree now t n (hact n hn)]

/-- Witness for claim C10 (amended) at a concrete all-active table. -/
theorem C10_witness :
    (scheduler_check_offline_nodes 100 90 [c10active]).1 =
      (service_check_offline_nodes 100 90 [c10active]).1
    ∧ (scheduler_check_offline_nodes 100 90 [c10active]).2 =
      (service_check_offline_nodes 100 90 [c10active]).2.length :=
  C10_amended 100 90 [c10active] (by decide) (by decide)

end MLSM
